import Mathlib

/-!
Verification of the unclaude autonomous agent security core: a shallow
embedding of the capability / sandbox-policy / session / daemon logic of the
repository, with theorems settling the frozen claims about it.

Conventions of the embedding:
* Python wall-clock floats (`time.time()`) are modelled as an explicit
  integer parameter `now`; money and heuristic scores are rationals.
* Python dicts keyed by the finite `Capability` enum are modelled as
  functions `Capability → Option CapabilityGrant`.
* Randomness (the capability-set token) and serialization (JSON lines) are
  outside the logic: the token fields are omitted, JSONL lines are modelled
  as structured values.
* Filesystem path resolution and URL parsing (`Path.resolve`,
  `urlparse().hostname`) are environment functions collected in `Env`.
-/

namespace Unclaude

/-- ASCII lowercase of a character (models Python str.lower on ASCII input). -/
def charLower (c : Char) : Char :=
  if 'A' ≤ c ∧ c ≤ 'Z' then Char.ofNat (c.toNat + 32) else c

/-- Models Python str.lower (ASCII fragment used by the repository). -/
def pyLower (s : String) : String := String.mk (s.toList.map charLower)

def isSpaceChar (c : Char) : Bool := c = ' ' || c = '\t' || c = '\n' || c = '\r'

/-- Models Python str.strip() for the whitespace the repository can see. -/
def pyStrip (s : String) : String :=
  String.mk (((s.toList.dropWhile isSpaceChar).reverse.dropWhile isSpaceChar).reverse)

/-- Fuelled shell-glob matcher: `*` matches any (possibly empty) sequence,
`?` a single character, anything else itself.  This is the fragment of Python
`fnmatch` exercised by the repository patterns (none use `[...]` classes).
Each step strictly shrinks `pattern.length + name.length`, so fuel
`pattern.length + name.length + 1` always suffices. -/
def globMatchAux : Nat → List Char → List Char → Bool
  | 0, _, _ => false
  | _ + 1, [], [] => true
  | f + 1, '*' :: ps, [] => globMatchAux f ps []
  | f + 1, '*' :: ps, c :: cs =>
      globMatchAux f ps (c :: cs) || globMatchAux f ('*' :: ps) cs
  | f + 1, '?' :: ps, _ :: cs => globMatchAux f ps cs
  | f + 1, p :: ps, c :: cs => p = c && globMatchAux f ps cs
  | _ + 1, _ :: _, [] => false
  | _ + 1, [], _ :: _ => false

/-- `fnmatch name pattern` — does `name` match the glob `pattern`? -/
def fnmatch (name pattern : String) : Bool :=
  globMatchAux (pattern.length + name.length + 1) pattern.toList name.toList

def isPrefixList : List Char → List Char → Bool
  | [], _ => true
  | _ :: _, [] => false
  | a :: as, b :: bs => a = b && isPrefixList as bs

def isInfixList : List Char → List Char → Bool
  | n, [] => n.isEmpty
  | n, c :: t => isPrefixList n (c :: t) || isInfixList n t

/-- `containsStr hay needle` — models Python `needle in hay`. -/
def containsStr (hay needle : String) : Bool := isInfixList needle.toList hay.toList

/-- Python truthiness of an optional string argument (`if path:`):
false for `None` and for the empty string. -/
def optTruthy : Option String → Bool
  | none => false
  | some s => !s.isEmpty

/-- Environment of external pure functions the policy layer consults:
URL hostname extraction and filesystem path expansion/resolution. -/
structure Env where
  hostname : String → String
  resolvePath : String → String
  expandUser : String → String

/-! ## auth/capabilities.py -/

/-- The closed enumeration of operation kinds (class Capability). -/
inductive Capability
  | FILE_READ | FILE_WRITE | FILE_DELETE | FILE_GLOB | FILE_GREP
  | DIR_LIST | DIR_CREATE
  | EXEC_SAFE | EXEC_SHELL | EXEC_BACKGROUND
  | NET_FETCH | NET_POST | NET_SEARCH | NET_WEBSOCKET
  | GIT_READ | GIT_WRITE | GIT_PUSH | GIT_BRANCH
  | MEMORY_READ | MEMORY_WRITE | MEMORY_DELETE
  | AGENT_SPAWN | AGENT_BACKGROUND
  | MCP_CONNECT | MCP_EXECUTE
  | BROWSER_NAVIGATE | BROWSER_INTERACT | BROWSER_SCREENSHOT
  | SYSTEM_CONFIG
  deriving DecidableEq

/-- The string value of each capability (the Python enum values). -/
def Capability.value : Capability → String
  | .FILE_READ => "file:read"
  | .FILE_WRITE => "file:write"
  | .FILE_DELETE => "file:delete"
  | .FILE_GLOB => "file:glob"
  | .FILE_GREP => "file:grep"
  | .DIR_LIST => "dir:list"
  | .DIR_CREATE => "dir:create"
  | .EXEC_SAFE => "exec:safe"
  | .EXEC_SHELL => "exec:shell"
  | .EXEC_BACKGROUND => "exec:background"
  | .NET_FETCH => "net:fetch"
  | .NET_POST => "net:post"
  | .NET_SEARCH => "net:search"
  | .NET_WEBSOCKET => "net:websocket"
  | .GIT_READ => "git:read"
  | .GIT_WRITE => "git:write"
  | .GIT_PUSH => "git:push"
  | .GIT_BRANCH => "git:branch"
  | .MEMORY_READ => "memory:read"
  | .MEMORY_WRITE => "memory:write"
  | .MEMORY_DELETE => "memory:delete"
  | .AGENT_SPAWN => "agent:spawn"
  | .AGENT_BACKGROUND => "agent:background"
  | .MCP_CONNECT => "mcp:connect"
  | .MCP_EXECUTE => "mcp:execute"
  | .BROWSER_NAVIGATE => "browser:navigate"
  | .BROWSER_INTERACT => "browser:interact"
  | .BROWSER_SCREENSHOT => "browser:screenshot"
  | .SYSTEM_CONFIG => "system:config"

/-- Scoping rules for a capability (class CapabilityScope). -/
structure CapabilityScope where
  paths : List String := []
  commands : List String := []
  domains : List String := []
  ttl_seconds : Option Int := none
  created_at : Int := 0
  max_invocations : Int := -1
  invocation_count : Int := 0
  rate_limit_count : Int := -1
  rate_limit_window : Int := 60
  rate_limit_calls : List Int := []
  deriving DecidableEq

namespace CapabilityScope

/-- CapabilityScope.is_expired. -/
def is_expired (s : CapabilityScope) (now : Int) : Bool :=
  match s.ttl_seconds with
  | none => false
  | some ttl => now - s.created_at > ttl

/-- CapabilityScope.is_exhausted. -/
def is_exhausted (s : CapabilityScope) : Bool :=
  if s.max_invocations = -1 then false
  else s.invocation_count ≥ s.max_invocations

/-- CapabilityScope.is_rate_limited.  The source prunes the recorded call
list in place before comparing, but only when a rate limit is configured;
the returned scope carries that (possibly pruned) list. -/
def is_rate_limited (s : CapabilityScope) (now : Int) : CapabilityScope × Bool :=
  if s.rate_limit_count = -1 then (s, false)
  else
    let pruned := s.rate_limit_calls.filter (fun t => now - t < s.rate_limit_window)
    ({ s with rate_limit_calls := pruned },
      (pruned.length : Int) ≥ s.rate_limit_count)

/-- CapabilityScope.record_invocation. -/
def record_invocation (s : CapabilityScope) (now : Int) : CapabilityScope :=
  { s with invocation_count := s.invocation_count + 1,
           rate_limit_calls := s.rate_limit_calls ++ [now] }

/-- CapabilityScope.matches_path. -/
def matches_path (s : CapabilityScope) (path : String) : Bool :=
  if s.paths.isEmpty then true
  else s.paths.any (fun pat => fnmatch path pat)

/-- CapabilityScope.matches_command. -/
def matches_command (s : CapabilityScope) (command : String) : Bool :=
  if s.commands.isEmpty then true
  else s.commands.any (fun pat => fnmatch command pat)

/-- CapabilityScope.matches_domain. -/
def matches_domain (s : CapabilityScope) (env : Env) (url : String) : Bool :=
  if s.domains.isEmpty then true
  else s.domains.any (fun pat => fnmatch (env.hostname url) pat)

end CapabilityScope

/-- A specific grant of a capability with its scope (class CapabilityGrant). -/
structure CapabilityGrant where
  capability : Capability
  scope : CapabilityScope := {}
  granted_by : String := "system"
  reason : String := ""
  deriving DecidableEq

/-- A set of capabilities assigned to an agent session (class CapabilitySet).
The random token / token_hash fields are omitted (external randomness that
no claim touches); the grant dict is a function from the finite enum. -/
structure CapabilitySet where
  created_at : Int := 0
  grants : Capability → Option CapabilityGrant := fun _ => none

namespace CapabilitySet

/-- CapabilitySet.grant: add or replace a grant. -/
def grant (s : CapabilitySet) (capability : Capability)
    (scope : Option CapabilityScope := none) (granted_by : String := "system")
    (reason : String := "") (now : Int := 0) : CapabilitySet :=
  { s with grants := fun c =>
      if c = capability then
        some { capability := capability,
               scope := scope.getD { created_at := now },
               granted_by := granted_by, reason := reason }
      else s.grants c }

/-- CapabilitySet.revoke: remove if present. -/
def revoke (s : CapabilitySet) (capability : Capability) : CapabilitySet :=
  { s with grants := fun c => if c = capability then none else s.grants c }

/-- CapabilitySet.has: presence check, ignoring scope. -/
def has (s : CapabilitySet) (capability : Capability) : Bool :=
  (s.grants capability).isSome

/-- The pre-defined capability profiles (CapabilitySet.PROFILES). -/
def PROFILES : List (String × List Capability) :=
  [ ("readonly",
      [.FILE_READ, .FILE_GLOB, .FILE_GREP, .DIR_LIST, .GIT_READ, .MEMORY_READ]),
    ("developer",
      [.FILE_READ, .FILE_WRITE, .FILE_GLOB, .FILE_GREP, .DIR_LIST, .DIR_CREATE,
       .EXEC_SAFE, .GIT_READ, .GIT_WRITE, .GIT_BRANCH, .NET_FETCH, .NET_SEARCH,
       .MEMORY_READ, .MEMORY_WRITE]),
    ("full",
      [.FILE_READ, .FILE_WRITE, .FILE_DELETE, .FILE_GLOB, .FILE_GREP,
       .DIR_LIST, .DIR_CREATE, .EXEC_SAFE, .EXEC_SHELL, .EXEC_BACKGROUND,
       .NET_FETCH, .NET_POST, .NET_SEARCH, .NET_WEBSOCKET,
       .GIT_READ, .GIT_WRITE, .GIT_PUSH, .GIT_BRANCH,
       .MEMORY_READ, .MEMORY_WRITE, .MEMORY_DELETE,
       .AGENT_SPAWN, .AGENT_BACKGROUND, .MCP_CONNECT, .MCP_EXECUTE,
       .BROWSER_NAVIGATE, .BROWSER_INTERACT, .BROWSER_SCREENSHOT,
       .SYSTEM_CONFIG]),
    ("autonomous",
      [.FILE_READ, .FILE_WRITE, .FILE_DELETE, .FILE_GLOB, .FILE_GREP,
       .DIR_LIST, .DIR_CREATE, .EXEC_SHELL, .EXEC_BACKGROUND,
       .GIT_READ, .GIT_WRITE, .GIT_BRANCH, .NET_FETCH, .NET_SEARCH,
       .MEMORY_READ, .MEMORY_WRITE, .AGENT_SPAWN]),
    ("subagent",
      [.FILE_READ, .FILE_GLOB, .FILE_GREP, .DIR_LIST, .EXEC_SAFE,
       .MEMORY_READ]) ]

/-- CapabilitySet.__init__ loading a profile (token fields omitted). -/
def ofProfile (profile : String) (now : Int := 0) : CapabilitySet :=
  let base : CapabilitySet := { created_at := now, grants := fun _ => none }
  match PROFILES.lookup profile with
  | some caps =>
      caps.foldl (fun s c => s.grant c none "system" ("Profile: " ++ profile) now) base
  | none => base

/-- CapabilitySet.check.  Returns the updated set (the source mutates it in
place: expiry revokes the grant; a configured rate limit lazily prunes its
window), the verdict, and the reason string. -/
def check (s : CapabilitySet) (env : Env) (now : Int) (capability : Capability)
    (path command url : Option String) : CapabilitySet × Bool × String :=
  match s.grants capability with
  | none => (s, false, "Capability " ++ capability.value ++ " not granted")
  | some g =>
    if g.scope.is_expired now then
      (s.revoke capability, false,
        "Capability " ++ capability.value ++ " has expired")
    else if g.scope.is_exhausted then
      (s, false, "Capability " ++ capability.value ++ " max invocations reached")
    else
      let pr := g.scope.is_rate_limited now
      let s' : CapabilitySet :=
        { s with grants := fun c =>
            if c = capability then some { g with scope := pr.1 } else s.grants c }
      if pr.2 then
        (s', false, "Capability " ++ capability.value ++ " rate limit exceeded")
      else if optTruthy path && !(pr.1.matches_path (path.getD "")) then
        (s', false, "Path " ++ path.getD "" ++ " not allowed for " ++ capability.value)
      else if optTruthy command && !(pr.1.matches_command (command.getD "")) then
        (s', false, "Command not allowed for " ++ capability.value)
      else if optTruthy url && !(pr.1.matches_domain env (url.getD "")) then
        (s', false, "Domain not allowed for " ++ capability.value)
      else
        (s', true, "Allowed")

/-- Helper for `use`: record an invocation on the stored grant of
`capability` (the source mutates `self._grants[capability].scope`). -/
def recordOn (s : CapabilitySet) (capability : Capability) (now : Int) : CapabilitySet :=
  match s.grants capability with
  | some g =>
      let g' : CapabilityGrant := { g with scope := g.scope.record_invocation now }
      { s with grants := fun c => if c = capability then some g' else s.grants c }
  | none => s

/-- CapabilitySet.use: check and, when allowed, record the invocation on the
granted scope. -/
def use (s : CapabilitySet) (env : Env) (now : Int) (capability : Capability)
    (path command url : Option String) : CapabilitySet × Bool × String :=
  let r := s.check env now capability path command url
  if r.2.1 then (recordOn r.1 capability now, r.2.1, r.2.2) else r

end CapabilitySet

/-! ## auth/policy.py -/

/-- Sandbox boundaries for an agent (class SandboxPolicy); the field
defaults are the dataclass defaults (the "standard" profile). -/
structure SandboxPolicy where
  allowed_paths : List String := []
  denied_paths : List String :=
    [ "~/.ssh/*", "~/.gnupg/*", "~/.aws/*", "~/.config/gcloud/*",
      "**/credentials*", "**/.env", "**/.env.*", "**/secret*",
      "**/*.pem", "**/*.key", "**/id_rsa*", "**/id_ed25519*" ]
  allowed_domains : List String := []
  denied_domains : List String :=
    [ "*.internal", "localhost", "127.0.0.1",
      "metadata.google.internal", "169.254.169.254" ]
  allowed_commands : List String := []
  denied_commands : List String :=
    [ "rm -rf /*", "rm -rf /", "mkfs*", "dd if=/dev/*",
      ":()\x7b:|:&\x7d;:", "chmod 777 /*", "curl * | bash",
      "wget * | bash", "sudo *", "su *" ]
  max_file_size_bytes : Int := 10 * 1024 * 1024
  max_files_created : Int := 100
  max_output_size_bytes : Int := 1024 * 1024
  exec_timeout_seconds : Int := 120
  max_concurrent_processes : Int := 5
  max_memory_entries : Int := 10000
  max_iterations : Int := 100
  max_tool_calls_per_turn : Int := 20
  max_cost_usd : ℚ := 50
  files_created_count : Int := 0
  current_concurrent_processes : Int := 0
  deriving DecidableEq

namespace SandboxPolicy

/-- SandboxPolicy.for_profile. -/
def for_profile (profile : String) : SandboxPolicy :=
  if profile = "strict" then
    { allowed_commands :=
        ["ls*", "cat*", "grep*", "find*", "echo*", "python*", "node*", "npm*"],
      max_file_size_bytes := 1024 * 1024,
      max_files_created := 10,
      exec_timeout_seconds := 30,
      max_iterations := 20,
      max_cost_usd := 5 }
  else if profile = "permissive" then
    { denied_paths := ["~/.ssh/*", "~/.gnupg/*"],
      denied_commands := ["rm -rf /*", "rm -rf /", "mkfs*"],
      max_file_size_bytes := 100 * 1024 * 1024,
      max_files_created := 1000,
      exec_timeout_seconds := 600,
      max_iterations := 200,
      max_cost_usd := 200 }
  else
    {}

end SandboxPolicy

/-- Exception PolicyViolation, as a value: message, capability, context. -/
structure PolicyViolation where
  message : String
  capability : Option Capability
  context : List (String × Option String)
  deriving DecidableEq

/-- Evaluates actions against sandbox policies (class PolicyEngine). -/
structure PolicyEngine where
  capabilities : CapabilitySet
  policy : SandboxPolicy := {}

namespace PolicyEngine

/-- PolicyEngine.check_file_access.  `env.resolvePath` models
`str(Path(path).expanduser().resolve())`, `env.expandUser` models
`str(Path(pattern).expanduser())`. -/
def check_file_access (e : PolicyEngine) (env : Env) (now : Int)
    (path : String) (write : Bool) : PolicyEngine × Bool × String :=
  let expanded := env.resolvePath path
  match e.policy.denied_paths.find?
      (fun pat => fnmatch expanded (env.expandUser pat) || fnmatch path pat) with
  | some pat => (e, false, "Path matches denied pattern: " ++ pat)
  | none =>
    if !e.policy.allowed_paths.isEmpty &&
        e.policy.allowed_paths.all
          (fun pat => !(fnmatch expanded (env.expandUser pat) || fnmatch path pat)) then
      (e, false, "Path not in allowed paths")
    else
      let cap := if write then Capability.FILE_WRITE else Capability.FILE_READ
      let r := e.capabilities.check env now cap (some path) none none
      ({ e with capabilities := r.1 }, r.2.1, r.2.2)

/-- PolicyEngine.check_command: lowercase/trim the command, test denied then
allowed globs, then the EXEC_SHELL capability. -/
def check_command (e : PolicyEngine) (env : Env) (now : Int)
    (command : String) : PolicyEngine × Bool × String :=
  let cmd_lower := pyLower (pyStrip command)
  match e.policy.denied_commands.find?
      (fun pat => fnmatch cmd_lower (pyLower pat)) with
  | some pat => (e, false, "Command matches denied pattern: " ++ pat)
  | none =>
    if !e.policy.allowed_commands.isEmpty &&
        e.policy.allowed_commands.all (fun pat => !fnmatch cmd_lower (pyLower pat)) then
      (e, false, "Command not in allowed commands")
    else
      let r := e.capabilities.check env now .EXEC_SHELL none (some command) none
      ({ e with capabilities := r.1 }, r.2.1, r.2.2)

/-- PolicyEngine.check_network. -/
def check_network (e : PolicyEngine) (env : Env) (now : Int)
    (url : String) : PolicyEngine × Bool × String :=
  let host := env.hostname url
  match e.policy.denied_domains.find? (fun pat => fnmatch host pat) with
  | some pat => (e, false, "Domain matches denied pattern: " ++ pat)
  | none =>
    if !e.policy.allowed_domains.isEmpty &&
        e.policy.allowed_domains.all (fun pat => !fnmatch host pat) then
      (e, false, "Domain not in allowed domains")
    else
      let r := e.capabilities.check env now .NET_FETCH none none (some url)
      ({ e with capabilities := r.1 }, r.2.1, r.2.2)

/-- PolicyEngine.check_resource_limits. -/
def check_resource_limits (e : PolicyEngine) (action : String) :
    PolicyEngine × Bool × String :=
  if action = "create_file" then
    if e.policy.files_created_count ≥ e.policy.max_files_created then
      (e, false,
        "Max files created (" ++ toString e.policy.max_files_created ++ ") reached")
    else
      ({ e with policy :=
          { e.policy with files_created_count := e.policy.files_created_count + 1 } },
        true, "Within limits")
  else if action = "spawn_process" then
    if e.policy.current_concurrent_processes ≥ e.policy.max_concurrent_processes then
      (e, false,
        "Max concurrent processes (" ++ toString e.policy.max_concurrent_processes
          ++ ") reached")
    else (e, true, "Within limits")
  else (e, true, "Within limits")

/-- PolicyEngine.enforce: capability use first (the only counter mutation),
then file / command / network / resource policy checks, each raising
(returning `some` PolicyViolation) on failure. -/
def enforce (e : PolicyEngine) (env : Env) (now : Int) (capability : Capability)
    (path command url action : Option String) :
    PolicyEngine × Option PolicyViolation :=
  let u := e.capabilities.use env now capability path command url
  let e1 : PolicyEngine := { e with capabilities := u.1 }
  if !u.2.1 then
    (e1, some { message := "Capability denied: " ++ u.2.2,
                capability := some capability,
                context := [("path", path), ("command", command), ("url", url)] })
  else
    let afterPath : PolicyEngine × Option PolicyViolation :=
      if optTruthy path then
        let write := capability = .FILE_WRITE || capability = .FILE_DELETE
        let r := e1.check_file_access env now (path.getD "") write
        if !r.2.1 then
          (r.1, some { message := "File access denied: " ++ r.2.2,
                       capability := some capability,
                       context := [("path", path)] })
        else (r.1, none)
      else (e1, none)
    match afterPath with
    | (e2, some v) => (e2, some v)
    | (e2, none) =>
      let afterCmd : PolicyEngine × Option PolicyViolation :=
        if optTruthy command then
          let r := e2.check_command env now (command.getD "")
          if !r.2.1 then
            (r.1, some { message := "Command denied: " ++ r.2.2,
                         capability := some capability,
                         context := [("command", command)] })
          else (r.1, none)
        else (e2, none)
      match afterCmd with
      | (e3, some v) => (e3, some v)
      | (e3, none) =>
        let afterUrl : PolicyEngine × Option PolicyViolation :=
          if optTruthy url then
            let r := e3.check_network env now (url.getD "")
            if !r.2.1 then
              (r.1, some { message := "Network access denied: " ++ r.2.2,
                           capability := some capability,
                           context := [("url", url)] })
            else (r.1, none)
          else (e3, none)
        match afterUrl with
        | (e4, some v) => (e4, some v)
        | (e4, none) =>
          if optTruthy action then
            let r := e4.check_resource_limits (action.getD "")
            if !r.2.1 then
              (r.1, some { message := "Resource limit: " ++ r.2.2,
                           capability := some capability,
                           context := [("action", action)] })
            else (r.1, none)
          else (e4, none)

end PolicyEngine

/-! ## sessions/manager.py -/

/-- One tool call carried by an assistant message (an element of the
`tool_calls` list; the payload dicts are flattened to strings). -/
structure SessToolCall where
  id : String
  name : String := ""
  arguments : String := ""
  deriving DecidableEq

/-- A message in a session (class SessionMessage; the free-form `metadata`
dict is omitted — no claim touches it). -/
structure SessionMessage where
  role : String
  content : Option String := none
  tool_calls : Option (List SessToolCall) := none
  tool_call_id : Option String := none
  name : Option String := none
  timestamp : Int := 0
  deriving DecidableEq

/-- Structured session key (class SessionKey). -/
structure SessionKey where
  agent_id : String := "main"
  session_id : String
  deriving DecidableEq

/-- str(key) = "agent:{agent_id}:{session_id}". -/
def SessionKey.toStr (k : SessionKey) : String :=
  "agent:" ++ k.agent_id ++ ":" ++ k.session_id

/-- SessionKey.filename = "{agent_id}_{session_id}.jsonl". -/
def SessionKey.filename (k : SessionKey) : String :=
  k.agent_id ++ "_" ++ k.session_id ++ ".jsonl"

/-- A conversation session with its message history
(class ConversationSession). -/
structure ConversationSession where
  key : SessionKey
  project_path : String := ""
  created_at : Int := 0
  updated_at : Int := 0
  messages : List SessionMessage := []
  compaction_summary : Option String := none
  compacted_count : Nat := 0
  deriving DecidableEq

/-- One line of a session JSONL file, as a structured value (the JSON
serialization itself is outside the embedding). -/
inductive SessionFileLine
  | meta (key : String) (project_path : String) (created_at : Int)
  | compaction (summary : String) (compacted_count : Nat) (timestamp : Int)
  | message (msg : SessionMessage)
  deriving DecidableEq

/-- The sessions directory as a map from file name to file content. -/
def SessionDir : Type := String → Option (List SessionFileLine)

namespace SessionStore

/-- SessionStore.create: build the key, then open the session file in
truncating write mode ("w") and write the single metadata line — with no
existence check on the file.  (The `session_id or uuid4` generation is
external randomness; the id is passed in.) -/
def create (dir : SessionDir) (agent_id session_id project_path : String)
    (now : Int) : SessionDir × ConversationSession :=
  let key : SessionKey := { agent_id := agent_id, session_id := session_id }
  let session : ConversationSession :=
    { key := key, project_path := project_path, created_at := now,
      updated_at := now }
  let dir' : SessionDir := fun f =>
    if f = key.filename then
      some [SessionFileLine.meta key.toStr project_path now]
    else dir f
  (dir', session)

/-- SessionStore.compact, at the level of the loaded session: when more than
`keep_recent` messages exist, rewrite the file as metadata line, compaction
record, then the `keep_recent` newest messages verbatim, and update the
in-memory session the same way.  Returns `none` for the file when nothing was
rewritten.  Python slices `messages[-keep_recent:]`, which for
`keep_recent = 0` is the whole list, hence the special case. -/
def compact (session : ConversationSession) (summary : String)
    (keep_recent : Nat) (now : Int) :
    Option (List SessionFileLine) × ConversationSession :=
  if session.messages.length ≤ keep_recent then (none, session)
  else
    let compact_count := session.messages.length - keep_recent
    let recent :=
      if keep_recent = 0 then session.messages
      else session.messages.drop (session.messages.length - keep_recent)
    let newFile : List SessionFileLine :=
      SessionFileLine.meta session.key.toStr session.project_path session.created_at ::
      SessionFileLine.compaction summary (session.compacted_count + compact_count) now ::
      recent.map SessionFileLine.message
    (some newFile,
      { session with
          compaction_summary := some summary,
          compacted_count := session.compacted_count + compact_count,
          messages := recent })

end SessionStore

/-! ## autonomous/daemon.py — TaskQueue -/

inductive TaskPriority
  | critical | high | normal | low | background
  deriving DecidableEq

inductive TaskStatus
  | queued | running | completed | failed | cancelled | retrying
  deriving DecidableEq

/-- A task in the daemon's queue (class DaemonTask). -/
structure DaemonTask where
  task_id : String := ""
  description : String := ""
  priority : TaskPriority := .normal
  status : TaskStatus := .queued
  source : String := "manual"
  project_path : String := ""
  result : Option String := none
  error : Option String := none
  agent_id : Option String := none
  iterations : Nat := 0
  cost_usd : ℚ := 0
  created_at : Int := 0
  started_at : Option Int := none
  completed_at : Option Int := none
  max_retries : Nat := 2
  retry_count : Nat := 0
  deriving DecidableEq

namespace TaskQueue

/-- The scan order of TaskQueue.pop (`priority_order` in the source). -/
def priority_order : List TaskPriority :=
  [.critical, .high, .normal, .low, .background]

/-- The inner `for task in self._tasks` loop of pop, for one priority:
mark the first queued task of that priority running (stamping started_at)
and return the rewritten list together with the task. -/
def markFirst (p : TaskPriority) (now : Int) :
    List DaemonTask → Option (List DaemonTask × DaemonTask)
  | [] => none
  | t :: ts =>
    if t.status = .queued ∧ t.priority = p then
      let t' : DaemonTask := { t with status := .running, started_at := some now }
      some (t' :: ts, t')
    else
      match markFirst p now ts with
      | some (ts', x) => some (t :: ts', x)
      | none => none

/-- The outer `for priority in priority_order` loop of pop. -/
def popLoop (now : Int) (tasks : List DaemonTask) :
    List TaskPriority → List DaemonTask × Option DaemonTask
  | [] => (tasks, none)
  | p :: ps =>
    match markFirst p now tasks with
    | some (ts', t') => (ts', some t')
    | none => popLoop now tasks ps

/-- TaskQueue.pop.  The task list parameter is the queue file content (the
source reloads it from disk first); the returned list is what is rewritten. -/
def pop (tasks : List DaemonTask) (now : Int) :
    List DaemonTask × Option DaemonTask :=
  popLoop now tasks priority_order

/-- TaskQueue.push: append and rewrite. -/
def push (tasks : List DaemonTask) (task : DaemonTask) : List DaemonTask :=
  tasks ++ [task]

end TaskQueue

/-! ## agent/enhanced_loop.py — stuck detection -/

/-- The stuck-detection state owned by the agent loop:
`_recent_tool_calls` (pairs of tool name and args hash),
`_stuck_warnings_given`, `_iterations_without_progress`. -/
structure StuckState where
  recent_tool_calls : List (String × String) := []
  stuck_warnings_given : Nat := 0
  iterations_without_progress : Nat := 0
  deriving DecidableEq

/-- Python `l[-n:]` for n ≥ 1. -/
def lastN {α : Type} (n : Nat) (l : List α) : List α := l.drop (l.length - n)

/-- EnhancedAgentLoop._track_tool_call: append the (name, hash) pair and keep
only the last 20 entries.  The md5 hashing of the argument dict is external;
the hash arrives as a string. -/
def track_tool_call (st : StuckState) (tool_name args_hash : String) : StuckState :=
  let r := st.recent_tool_calls ++ [(tool_name, args_hash)]
  { st with recent_tool_calls := if r.length > 20 then lastN 20 r else r }

/-- Does `set(l)` have exactly one element (for nonempty l)? -/
def allSame : List (String × String) → Bool
  | [] => true
  | a :: rest => rest.all (fun b => b = a)

/-- Keys of a list in first-occurrence order (the key order of a Python
Counter built from the list). -/
def dedupFirst (l : List String) : List String :=
  l.foldl (fun acc k => if acc.contains k then acc else acc ++ [k]) []

/-- Counter(l).most_common(1)[0]: the maximal-count element, ties broken by
first occurrence (Counter insertion order under Python's stable sort). -/
def mostCommon (l : List String) : Option (String × Nat) :=
  (dedupFirst l).foldl
    (fun acc k =>
      match acc with
      | none => some (k, l.count k)
      | some (k0, c0) => if l.count k > c0 then some (k, l.count k) else some (k0, c0))
    none

/-- EnhancedAgentLoop._detect_stuck.  The iteration argument is accepted and
ignored, exactly as in the source.  Returns the updated state (the warning
counter mutates) and `none`, a warning message, or the sentinel "BAIL". -/
def detect_stuck (st : StuckState) (_iteration : Nat) : StuckState × Option String :=
  let recent := st.recent_tool_calls
  if recent.length < 4 then (st, none)
  else
    let last_8 := lastN 8 recent
    let last_5 := lastN 5 recent
    if last_5.length ≥ 3 ∧ allSame (lastN 3 last_5) then
      let st' : StuckState := { st with stuck_warnings_given := st.stuck_warnings_given + 1 }
      if st'.stuck_warnings_given ≥ 3 then (st', some "BAIL")
      else
        let tool_name := ((lastN 1 last_5).headD ("", "")).1
        (st', some ("[SYSTEM] You are repeating the exact same \x27" ++ tool_name
          ++ "\x27 call multiple times with identical arguments. "
          ++ "This is not making progress. STOP using this approach. "
          ++ "Either try a completely different strategy "
          ++ "or conclude with what you have so far."))
    else
      let dom := mostCommon (last_8.map Prod.fst)
      if last_8.length ≥ 6 ∧ dom.elim false (fun kc => kc.2 ≥ 6) then
        let st' : StuckState := { st with stuck_warnings_given := st.stuck_warnings_given + 1 }
        if st'.stuck_warnings_given ≥ 3 then (st', some "BAIL")
        else
          let kc := dom.getD ("", 0)
          (st', some ("[SYSTEM] You\x27ve called \x27" ++ kc.1 ++ "\x27 "
            ++ toString kc.2 ++ " times in the last " ++ toString last_8.length
            ++ " tool calls. You appear to be stuck. "
            ++ "Step back and reconsider your approach. If the task cannot be "
            ++ "completed this way, summarize what you found and conclude."))
      else if st.iterations_without_progress ≥ 5 then
        let st' : StuckState := { st with stuck_warnings_given := st.stuck_warnings_given + 1 }
        if st'.stuck_warnings_given ≥ 3 then (st', some "BAIL")
        else
          (st', some ("[SYSTEM] Multiple iterations have passed without any successful "
            ++ "tool execution. You may be approaching this incorrectly. "
            ++ "Reconsider the problem, try a simpler approach, or summarize "
            ++ "your findings and conclude."))
      else (st, none)

/-! ## usage.py -/

/-- Known model pricing, cost per 1K tokens: (model, input, output), in the
source dict's insertion order (the partial-match loop scans it in order). -/
def MODEL_PRICING : List (String × ℚ × ℚ) :=
  [ ("gemini/gemini-2.0-flash", 0.0001, 0.0004),
    ("gemini/gemini-2.5-flash", 0.00015, 0.00035),
    ("gemini/gemini-2.5-pro", 0.00125, 0.005),
    ("gpt-4o-mini", 0.00015, 0.0006),
    ("gpt-4o", 0.0025, 0.01),
    ("o3", 0.01, 0.04),
    ("o3-mini", 0.0011, 0.0044),
    ("claude-3-5-haiku-20241022", 0.0008, 0.004),
    ("claude-sonnet-4-20250514", 0.003, 0.015),
    ("claude-opus-4-20250514", 0.015, 0.075),
    ("deepseek/deepseek-chat", 0.00014, 0.00028),
    ("deepseek/deepseek-reasoner", 0.00055, 0.00219),
    ("ollama/llama3.1", 0, 0),
    ("ollama/codellama", 0, 0),
    ("ollama/deepseek-coder-v2", 0, 0) ]

/-- UsageTracker.estimate_cost: exact table hit, else first partial
substring match (either direction), else the conservative fallback of
$2 per million tokens. -/
def estimate_cost (model : String) (prompt_tokens completion_tokens : Nat) : ℚ :=
  let pricing :=
    match MODEL_PRICING.lookup model with
    | some pr => some pr
    | none =>
        (MODEL_PRICING.find?
          (fun (kv : String × ℚ × ℚ) =>
            containsStr model kv.1 || containsStr kv.1 model)).map
          (fun (kv : String × ℚ × ℚ) => kv.2)
  match pricing with
  | none => ((prompt_tokens : ℚ) + (completion_tokens : ℚ)) * 0.000002
  | some pr =>
      (prompt_tokens : ℚ) / 1000 * pr.1 + (completion_tokens : ℚ) / 1000 * pr.2

/-! ## routing/scorer.py -/

inductive RequestTier
  | simple | medium | complex | reasoning
  deriving DecidableEq

/-- The seven dimension scores computed by RequestScorer.score (the regex
feature extraction itself is outside the embedding; the claims quantify over
the resulting scores). -/
structure Scores where
  length : ℚ := 0
  code : ℚ := 0
  reasoning : ℚ := 0
  agentic : ℚ := 0
  math : ℚ := 0
  depth : ℚ := 0
  simplicity : ℚ := 0
  deriving DecidableEq

namespace RequestScorer

/-- The weighted sum over the dimensions, with RequestScorer.WEIGHTS, in the
score dict's insertion order. -/
def weightedSum (s : Scores) : ℚ :=
  s.length * 0.10 + s.code * 0.20 + s.reasoning * 0.25 + s.agentic * 0.20
    + s.math * 0.10 + s.depth * 0.05 + s.simplicity * 0.10

/-- RequestScorer._classify: hard rules first, then the threshold ladder on
the weighted score. -/
def classify (weighted_score : ℚ) (scores : Scores) : RequestTier × ℚ :=
  if scores.reasoning > 0.8 then (.reasoning, 0.97)
  else if scores.simplicity > 0.5 then (.simple, 0.95)
  else if scores.math > 0.5 then (.reasoning, 0.90)
  else if weighted_score < 0.15 then (.simple, 0.85)
  else if weighted_score < 0.35 then (.medium, 0.80)
  else if weighted_score < 0.55 then (.complex, 0.75)
  else (.reasoning, 0.70)

end RequestScorer

/-! ## Specification-side definitions (written from the spec's wording, to be
compared with the source embedding) -/

/-- The ordered condition list of §4.1 of the spec: presence → TTL expiry →
max-invocation exhaustion → rate-limit window → path scope match → command
scope match → domain scope match, each paired with its failure reason.
"First failing check determines reason". -/
def checkConditionsSpec (s : CapabilitySet) (env : Env) (now : Int)
    (cap : Capability) (path command url : Option String) :
    List (Bool × String) :=
  match s.grants cap with
  | none => [(true, "Capability " ++ cap.value ++ " not granted")]
  | some g =>
      [ (g.scope.is_expired now,
          "Capability " ++ cap.value ++ " has expired"),
        (g.scope.is_exhausted,
          "Capability " ++ cap.value ++ " max invocations reached"),
        ((g.scope.is_rate_limited now).2,
          "Capability " ++ cap.value ++ " rate limit exceeded"),
        (optTruthy path && !(g.scope.matches_path (path.getD "")),
          "Path " ++ path.getD "" ++ " not allowed for " ++ cap.value),
        (optTruthy command && !(g.scope.matches_command (command.getD "")),
          "Command not allowed for " ++ cap.value),
        (optTruthy url && !(g.scope.matches_domain env (url.getD "")),
          "Domain not allowed for " ++ cap.value) ]

/-- The verdict the spec prescribes: the reason of the first failing
condition, else allowed. -/
def checkSpecResult (s : CapabilitySet) (env : Env) (now : Int)
    (cap : Capability) (path command url : Option String) : Bool × String :=
  match (checkConditionsSpec s env now cap path command url).find?
      (fun bc => bc.1) with
  | some bc => (false, bc.2)
  | none => (true, "Allowed")

/-- Frame relation on scopes: nothing incremented, no timestamp added (the
recorded-call list may only lose stale entries), every configuration field
untouched. -/
def scopeFrame (old new : CapabilityScope) : Prop :=
  new.invocation_count = old.invocation_count ∧
  new.rate_limit_calls.Sublist old.rate_limit_calls ∧
  new.paths = old.paths ∧ new.commands = old.commands ∧
  new.domains = old.domains ∧ new.ttl_seconds = old.ttl_seconds ∧
  new.created_at = old.created_at ∧
  new.max_invocations = old.max_invocations ∧
  new.rate_limit_count = old.rate_limit_count ∧
  new.rate_limit_window = old.rate_limit_window

/-- Numeric rank of a task priority in the scan order of the spec
(critical first). -/
def priorityRank : TaskPriority → Nat
  | .critical => 0
  | .high => 1
  | .normal => 2
  | .low => 3
  | .background => 4

/-! ## Concrete fixtures used by counterexamples and witnesses -/

namespace Fixtures

/-- An inert environment: no claim below exercises URL parsing or path
resolution, but the definitions require an environment value. -/
def env0 : Env := { hostname := fun _ => "", resolvePath := id, expandUser := id }

/-- The autonomous-profile engine of scenario S2. -/
def eng0 : PolicyEngine := { capabilities := CapabilitySet.ofProfile "autonomous" 0 }

/-- The grant the autonomous profile stores for exec.shell. -/
def shellGrant : CapabilityGrant :=
  { capability := .EXEC_SHELL, scope := { created_at := 0 },
    granted_by := "system", reason := "Profile: autonomous" }

/-- A set holding one file.read grant with a 10-second TTL created at t=0. -/
def sExp : CapabilitySet :=
  CapabilitySet.grant {} .FILE_READ
    (some { ttl_seconds := some 10, created_at := 0 }) "test" "" 0

/-- The grant stored in `sExp`. -/
def expGrant : CapabilityGrant :=
  { capability := .FILE_READ, scope := { ttl_seconds := some 10, created_at := 0 },
    granted_by := "test", reason := "" }

/-- Stuck tracker after three identical (bash, hash1) calls. -/
def st3 : StuckState :=
  track_tool_call (track_tool_call (track_tool_call {} "bash" "hash1") "bash" "hash1")
    "bash" "hash1"

/-- Stuck tracker after four identical (bash, hash1) calls. -/
def st4 : StuckState := track_tool_call st3 "bash" "hash1"

def tA : DaemonTask := { task_id := "A", priority := .normal }
def tB : DaemonTask := { task_id := "B", priority := .critical }
def tC : DaemonTask := { task_id := "C", priority := .high }

/-- An assistant message carrying one tool call. -/
def asst : SessionMessage :=
  { role := "assistant", tool_calls := some [{ id := "call1", name := "bash" }] }

/-- The tool-role response to `asst`'s tool call. -/
def toolResp : SessionMessage :=
  { role := "tool", tool_call_id := some "call1", content := some "ok" }

/-- A session whose last message is a tool response whose assistant parent
immediately precedes it. -/
def sess0 : ConversationSession :=
  { key := { agent_id := "unclaude", session_id := "s1" }, messages := [asst, toolResp] }

/-- A sessions directory already holding a log for unclaude/abc with one
message beyond the metadata line. -/
def dir0 : SessionDir := fun f =>
  if f = "unclaude_abc.jsonl" then
    some [SessionFileLine.meta "agent:unclaude:abc" "/p" 1,
          SessionFileLine.message { role := "user", content := some "hi" }]
  else none

/-- A score vector whose reasoning dimension exceeds the 0.8 hard-rule
threshold. -/
def scoresR : Scores := { reasoning := 1 }

end Fixtures

/-! ## Helper lemmas -/

/-- The pruned scope returned by is_rate_limited keeps every field except
(possibly) the recorded-call list, which it can only thin out. -/
theorem is_rate_limited_fst (sc : CapabilityScope) (now : Int) :
    ((sc.is_rate_limited now).1).paths = sc.paths ∧
    ((sc.is_rate_limited now).1).commands = sc.commands ∧
    ((sc.is_rate_limited now).1).domains = sc.domains ∧
    ((sc.is_rate_limited now).1).ttl_seconds = sc.ttl_seconds ∧
    ((sc.is_rate_limited now).1).created_at = sc.created_at ∧
    ((sc.is_rate_limited now).1).max_invocations = sc.max_invocations ∧
    ((sc.is_rate_limited now).1).invocation_count = sc.invocation_count ∧
    ((sc.is_rate_limited now).1).rate_limit_count = sc.rate_limit_count ∧
    ((sc.is_rate_limited now).1).rate_limit_window = sc.rate_limit_window ∧
    ((sc.is_rate_limited now).1).rate_limit_calls.Sublist sc.rate_limit_calls := by
  unfold CapabilityScope.is_rate_limited
  split
  · exact ⟨rfl, rfl, rfl, rfl, rfl, rfl, rfl, rfl, rfl, List.Sublist.refl _⟩
  · exact ⟨rfl, rfl, rfl, rfl, rfl, rfl, rfl, rfl, rfl, List.filter_sublist _⟩

/-- scopeFrame holds from a scope to its rate-limit-pruned version. -/
theorem scopeFrame_rate_limited (sc : CapabilityScope) (now : Int) :
    scopeFrame sc ((sc.is_rate_limited now).1) := by
  obtain ⟨h1, h2, h3, h4, h5, h6, h7, h8, h9, h10⟩ := is_rate_limited_fst sc now
  exact ⟨h7, h10, h1, h2, h3, h4, h5, h6, h8, h9⟩

/-- The state check leaves behind is one of: unchanged, the grant revoked
(exactly when it had expired), or the grant's scope replaced by its
rate-limit-pruned version. -/
theorem check_state_cases (s : CapabilitySet) (env : Env) (now : Int)
    (cap : Capability) (path command url : Option String) :
    (s.check env now cap path command url).1 = s ∨
    (∃ g, s.grants cap = some g ∧ g.scope.is_expired now = true ∧
      (s.check env now cap path command url).1 = s.revoke cap) ∨
    (∃ g, s.grants cap = some g ∧
      (s.check env now cap path command url).1 =
        { s with grants := fun x =>
            if x = cap then some { g with scope := (g.scope.is_rate_limited now).1 }
            else s.grants x }) := by
  unfold CapabilitySet.check
  cases hg : s.grants cap with
  | none => exact Or.inl rfl
  | some g =>
    by_cases h1 : g.scope.is_expired now
    · exact Or.inr (Or.inl ⟨g, rfl, h1, by simp [h1]⟩)
    · by_cases h2 : g.scope.is_exhausted
      · simp [h1, h2]
      · refine Or.inr (Or.inr ⟨g, rfl, ?_⟩)
        simp only [h1, h2, Bool.false_eq_true, if_false]
        split
        · rfl
        · split
          · rfl
          · split
            · rfl
            · split
              · rfl
              · rfl

/-- When check allows, the stored grant is the original one with its scope
rate-limit-pruned. -/
theorem check_allowed_grant (s : CapabilitySet) (env : Env) (now : Int)
    (cap : Capability) (path command url : Option String) (g : CapabilityGrant)
    (hg : s.grants cap = some g)
    (hok : (s.check env now cap path command url).2.1 = true) :
    (s.check env now cap path command url).1.grants cap =
      some { g with scope := (g.scope.is_rate_limited now).1 } := by
  unfold CapabilitySet.check at *
  rw [hg] at hok ⊢
  by_cases h1 : g.scope.is_expired now
  · simp [h1] at hok
  · by_cases h2 : g.scope.is_exhausted
    · simp [h1, h2] at hok
    · simp only [h1, h2, Bool.false_eq_true, if_false] at hok ⊢
      by_cases h3 : (g.scope.is_rate_limited now).2
      · simp [h3] at hok
      · simp only [h3, Bool.false_eq_true, if_false] at hok ⊢
        by_cases h4 : (optTruthy path
            && !((g.scope.is_rate_limited now).1.matches_path (path.getD ""))) = true
        · simp [h4] at hok
        · by_cases h5 : (optTruthy command
              && !((g.scope.is_rate_limited now).1.matches_command (command.getD ""))) = true
          · simp [h4, h5] at hok
          · by_cases h6 : (optTruthy url
                && !((g.scope.is_rate_limited now).1.matches_domain env (url.getD ""))) = true
            · simp [h4, h5, h6] at hok
            · simp [h4, h5, h6]

/-- use never changes the verdict or the reason computed by check. -/
theorem use_verdict (s : CapabilitySet) (env : Env) (now : Int)
    (cap : Capability) (path command url : Option String) :
    (s.use env now cap path command url).2 =
      (s.check env now cap path command url).2 := by
  unfold CapabilitySet.use
  dsimp only
  split <;> rfl

/-- A successful use increments the invocation counter of the used grant by
exactly one. -/
theorem use_allowed_increments (s : CapabilitySet) (env : Env) (now : Int)
    (cap : Capability) (path command url : Option String) (g : CapabilityGrant)
    (hg : s.grants cap = some g)
    (hok : (s.use env now cap path command url).2.1 = true) :
    ∃ g', (s.use env now cap path command url).1.grants cap = some g' ∧
      g'.scope.invocation_count = g.scope.invocation_count + 1 ∧
      g'.capability = g.capability ∧
      g'.scope.rate_limit_calls =
        ((g.scope.is_rate_limited now).1).rate_limit_calls ++ [now] := by
  have hchk : (s.check env now cap path command url).2.1 = true := by
    rw [← use_verdict]; exact hok
  have hgr := check_allowed_grant s env now cap path command url g hg hchk
  unfold CapabilitySet.use
  dsimp only
  simp only [hchk, if_true]
  unfold CapabilitySet.recordOn
  rw [hgr]
  have hinv := (is_rate_limited_fst g.scope now).2.2.2.2.2.2.1
  refine ⟨{ capability := g.capability, granted_by := g.granted_by, reason := g.reason,
            scope := ((g.scope.is_rate_limited now).1).record_invocation now },
          ?_, ?_, rfl, rfl⟩
  · simp
  · simp [CapabilityScope.record_invocation, hinv]

/-- markFirst finds nothing iff no listed task is queued at that priority. -/
theorem markFirst_eq_none (p : TaskPriority) (now : Int) :
    ∀ ts : List DaemonTask, TaskQueue.markFirst p now ts = none ↔
      ∀ t ∈ ts, ¬(t.status = .queued ∧ t.priority = p) := by
  intro ts
  induction ts with
  | nil => simp [TaskQueue.markFirst]
  | cons t ts ih =>
    by_cases h : t.status = .queued ∧ t.priority = p
    · simp only [TaskQueue.markFirst, if_pos h]
      simp only [List.mem_cons]
      constructor
      · intro hc; exact absurd hc (by simp)
      · intro hall; exact absurd h (hall t (Or.inl rfl))
    · simp only [TaskQueue.markFirst, if_neg h]
      cases hm : TaskQueue.markFirst p now ts with
      | none =>
        simp only [List.mem_cons]
        constructor
        · intro _ u hu
          rcases hu with hu | hu
          · rw [hu]; exact h
          · exact (ih.mp hm) u hu
        · intro _; trivial
      | some pr =>
        simp only [List.mem_cons]
        constructor
        · intro hc; exact absurd hc (by simp)
        · intro hall
          have : TaskQueue.markFirst p now ts = none :=
            ih.mpr (fun u hu => hall u (Or.inr hu))
          rw [this] at hm; exact absurd hm (by simp)

/-- Characterization of a successful markFirst: it marks the first queued
task of the given priority running with started_at stamped, rewrites that
slot in place, and everything before that slot was not a queued task of the
priority. -/
theorem markFirst_eq_some (p : TaskPriority) (now : Int) :
    ∀ (ts ts' : List DaemonTask) (t' : DaemonTask),
      TaskQueue.markFirst p now ts = some (ts', t') →
      ∃ i t0, ts.get? i = some t0 ∧ t0.status = .queued ∧ t0.priority = p ∧
        t' = { t0 with status := .running, started_at := some now } ∧
        ts' = ts.set i t' ∧
        ∀ j, j < i → ∀ u, ts.get? j = some u →
          ¬(u.status = .queued ∧ u.priority = p) := by
  intro ts
  induction ts with
  | nil => intro ts' t' h; simp [TaskQueue.markFirst] at h
  | cons t ts ih =>
    intro ts' t' h
    by_cases hc : t.status = .queued ∧ t.priority = p
    · simp only [TaskQueue.markFirst, if_pos hc] at h
      obtain ⟨h1, h2⟩ := Prod.mk.injEq .. ▸ Option.some.injEq .. ▸ h
      refine ⟨0, t, rfl, hc.1, hc.2, ?_, ?_, ?_⟩
      · cases h; rfl
      · cases h; rfl
      · intro j hj; omega
    · simp only [TaskQueue.markFirst, if_neg hc] at h
      cases hm : TaskQueue.markFirst p now ts with
      | none => rw [hm] at h; exact absurd h (by simp)
      | some pr =>
        rw [hm] at h
        obtain ⟨ts₂, x⟩ := pr
        simp only [Option.some.injEq, Prod.mk.injEq] at h
        obtain ⟨hts', hx⟩ := h
        obtain ⟨i, t0, hget, hq, hp, ht', hset, hbefore⟩ := ih ts₂ x hm
        refine ⟨i + 1, t0, by simpa using hget, hq, hp, by rw [← hx]; exact ht', ?_, ?_⟩
        · rw [← hts', hset, hx]; rfl
        · intro j hj u hu
          cases j with
          | zero => simp at hu; rw [← hu]; exact hc
          | succ j' =>
            exact hbefore j' (by omega) u (by simpa using hu)

/-- scopeFrame is reflexive. -/
theorem scopeFrame_refl (sc : CapabilityScope) : scopeFrame sc sc :=
  ⟨rfl, List.Sublist.refl _, rfl, rfl, rfl, rfl, rfl, rfl, rfl, rfl⟩

/-- Path matching ignores the rate-limit pruning of a scope. -/
theorem matches_path_pruned (sc : CapabilityScope) (now : Int) (x : String) :
    ((sc.is_rate_limited now).1).matches_path x = sc.matches_path x := by
  unfold CapabilityScope.matches_path
  rw [(is_rate_limited_fst sc now).1]

/-- Command matching ignores the rate-limit pruning of a scope. -/
theorem matches_command_pruned (sc : CapabilityScope) (now : Int) (x : String) :
    ((sc.is_rate_limited now).1).matches_command x = sc.matches_command x := by
  unfold CapabilityScope.matches_command
  rw [(is_rate_limited_fst sc now).2.1]

/-- Domain matching ignores the rate-limit pruning of a scope. -/
theorem matches_domain_pruned (sc : CapabilityScope) (now : Int) (env : Env) (x : String) :
    ((sc.is_rate_limited now).1).matches_domain env x = sc.matches_domain env x := by
  unfold CapabilityScope.matches_domain
  rw [(is_rate_limited_fst sc now).2.2.1]

/-- The priority rank determines the priority. -/
theorem priorityRank_inj : ∀ a b : TaskPriority,
    priorityRank a = priorityRank b → a = b := by
  intro a b h
  cases a <;> cases b <;> first
    | rfl
    | simp [priorityRank] at h

/-- Characterization of the pop result when the scan finds its task at
priority p after drawing a blank at the priorities of `earlier`. -/
theorem popAt_characterize (tasks : List DaemonTask) (now : Int)
    (p : TaskPriority) (earlier : List TaskPriority)
    (l' : List DaemonTask) (t' : DaemonTask)
    (hearlier : ∀ q ∈ earlier, TaskQueue.markFirst q now tasks = none)
    (hrank : ∀ q : TaskPriority, priorityRank p ≤ priorityRank q ∨ q ∈ earlier)
    (hfound : TaskQueue.markFirst p now tasks = some (l', t')) :
    ∃ i t0, tasks.get? i = some t0 ∧ t0.status = .queued ∧
      t' = { t0 with status := .running, started_at := some now } ∧
      l' = tasks.set i t' ∧
      (∀ u ∈ tasks, u.status = .queued →
        priorityRank t0.priority ≤ priorityRank u.priority) ∧
      (∀ j, j < i → ∀ u, tasks.get? j = some u → u.status = .queued →
        priorityRank t0.priority < priorityRank u.priority) := by
  obtain ⟨i, t0, hget, hq, hp, ht', hset, hbefore⟩ :=
    markFirst_eq_some p now tasks l' t' hfound
  refine ⟨i, t0, hget, hq, ht', hset, ?_, ?_⟩
  · intro u hu huq
    rcases hrank u.priority with hle | hmem
    · rw [hp]; exact hle
    · exact absurd ⟨huq, rfl⟩
        ((markFirst_eq_none u.priority now tasks).mp (hearlier _ hmem) u hu)
  · intro j hj u hu huq
    have humem : u ∈ tasks := List.get?_mem hu
    have hne : u.priority ≠ p := fun hx => hbefore j hj u hu ⟨huq, hx⟩
    rcases hrank u.priority with hle | hmem
    · rw [hp]
      exact lt_of_le_of_ne hle
        (fun heq => hne ((priorityRank_inj _ _ heq).symm))
    · exact absurd ⟨huq, rfl⟩
        ((markFirst_eq_none u.priority now tasks).mp (hearlier _ hmem) u humem)

/-! ## Claim theorems -/

/-- Claim C1, counterexample: on the autonomous profile (which grants
exec.shell unrestricted), enforce with command "rm -rf /" does raise the
PolicyViolation whose reason carries "Command matches denied pattern", but
the exec.shell invocation counter moves from 0 to 1 — refuting the claim
that a failed enforce leaves the counter unchanged. -/
theorem C1_counterexample :
    (Fixtures.eng0.enforce Fixtures.env0 5 .EXEC_SHELL none (some "rm -rf /")
        none none).2 =
      some { message := "Command denied: Command matches denied pattern: rm -rf /*",
             capability := some .EXEC_SHELL,
             context := [("command", some "rm -rf /")] } ∧
    (Fixtures.eng0.capabilities.grants .EXEC_SHELL).map
      (fun g => g.scope.invocation_count) = some 0 ∧
    ((Fixtures.eng0.enforce Fixtures.env0 5 .EXEC_SHELL none (some "rm -rf /")
        none none).1.capabilities.grants .EXEC_SHELL).map
      (fun g => g.scope.invocation_count) = some 1 :=
  ⟨by decide, by decide, by decide⟩

/-- Claim C1 (amended): whenever exec.shell is granted and usable and the
command matches a denied pattern, enforce raises PolicyViolation with reason
"Command denied: Command matches denied pattern: <pattern>" — but the grant's
invocation_count is incremented by exactly one, because the capability-use
step succeeds and records the invocation before the command check raises. -/
theorem C1_enforce_denied_command (e : PolicyEngine) (env : Env) (now : Int)
    (cmd : String) (g : CapabilityGrant) (pat : String)
    (hg : e.capabilities.grants .EXEC_SHELL = some g)
    (htr : optTruthy (some cmd) = true)
    (hok : (e.capabilities.use env now .EXEC_SHELL none (some cmd) none).2.1 = true)
    (hpat : e.policy.denied_commands.find?
        (fun p => fnmatch (pyLower (pyStrip cmd)) (pyLower p)) = some pat) :
    (e.enforce env now .EXEC_SHELL none (some cmd) none none).2 =
      some { message := "Command denied: "
                ++ ("Command matches denied pattern: " ++ pat),
             capability := some .EXEC_SHELL,
             context := [("command", some cmd)] } ∧
    ∃ g', (e.enforce env now .EXEC_SHELL none (some cmd) none
        none).1.capabilities.grants .EXEC_SHELL = some g' ∧
      g'.scope.invocation_count = g.scope.invocation_count + 1 := by
  obtain ⟨g', hgr, hinc, _, _⟩ :=
    use_allowed_increments e.capabilities env now .EXEC_SHELL none (some cmd) none g hg hok
  have hnone : optTruthy none = false := rfl
  unfold PolicyEngine.enforce
  dsimp only
  simp only [hok, Bool.not_true, Bool.false_eq_true, if_false, hnone, htr, if_true]
  unfold PolicyEngine.check_command
  dsimp only
  simp only [Option.getD_some]
  rw [hpat]
  dsimp only
  exact ⟨rfl, ⟨g', hgr, hinc⟩⟩

/-- Claim C1 witness: the amended theorem at the S2 scenario — autonomous
profile, command "rm -rf /", denied pattern "rm -rf /*". -/
theorem C1_witness :
    Fixtures.eng0.capabilities.grants .EXEC_SHELL = some Fixtures.shellGrant ∧
    (Fixtures.eng0.enforce Fixtures.env0 5 .EXEC_SHELL none (some "rm -rf /")
        none none).2 =
      some { message := "Command denied: Command matches denied pattern: rm -rf /*",
             capability := some .EXEC_SHELL,
             context := [("command", some "rm -rf /")] } :=
  ⟨by decide,
    (C1_enforce_denied_command Fixtures.eng0 Fixtures.env0 5 "rm -rf /"
      Fixtures.shellGrant "rm -rf /*" (by decide) (by decide) (by decide)
      (by decide)).1⟩

/-- Claim C2, counterexample: the expired-grant denial branch of check does
mutate the capability set — the grant is revoked — refuting the claim that a
denying check mutates nothing in all denial branches. -/
theorem C2_counterexample :
    (Fixtures.sExp.check Fixtures.env0 11 .FILE_READ none none none).2 =
      (false, "Capability file:read has expired") ∧
    (Fixtures.sExp.grants .FILE_READ).isSome = true ∧
    (Fixtures.sExp.check Fixtures.env0 11 .FILE_READ none none none).1.grants
      .FILE_READ = none :=
  ⟨by decide, by decide, by decide⟩

/-- Claim C2 (amended): a denying check never increments any
invocation_count and never appends a rate-limit timestamp; the only state
changes it can make are removing the checked grant when it has expired  and
thinning stale entries out of that grant's rate-limit window (the lazy
prune). Grants of other capabilities are untouched. -/
theorem C2_check_denial_frame (s : CapabilitySet) (env : Env) (now : Int)
    (cap : Capability) (path command url : Option String)
    (hden : (s.check env now cap path command url).2.1 = false) :
    (∀ x, x ≠ cap →
      (s.check env now cap path command url).1.grants x = s.grants x) ∧
    (∀ g', (s.check env now cap path command url).1.grants cap = some g' →
      ∃ g, s.grants cap = some g ∧ g'.capability = g.capability ∧
        g'.granted_by = g.granted_by ∧ g'.reason = g.reason ∧
        scopeFrame g.scope g'.scope) ∧
    ((s.check env now cap path command url).1.grants cap = none →
      s.grants cap = none ∨
      ∃ g, s.grants cap = some g ∧ g.scope.is_expired now = true) := by
  clear hden
  rcases check_state_cases s env now cap path command url with
    h | ⟨g, hg, hexp, h⟩ | ⟨g, hg, h⟩
  · rw [h]
    exact ⟨fun x _ => rfl,
      fun g' hg' => ⟨g', hg', rfl, rfl, rfl, scopeFrame_refl _⟩,
      fun hn => Or.inl hn⟩
  · rw [h]
    unfold CapabilitySet.revoke
    refine ⟨fun x hx => ?_, fun g' hg' => ?_, fun _ => Or.inr ⟨g, hg, hexp⟩⟩
    · simp [hx]
    · simp at hg'
  · rw [h]
    refine ⟨fun x hx => ?_, fun g' hg' => ?_, fun hn => ?_⟩
    · simp [hx]
    · dsimp only at hg'
      rw [if_pos rfl] at hg'
      injection hg' with h
      subst h
      exact ⟨g, hg, rfl, rfl, rfl, scopeFrame_rate_limited _ _⟩
    · simp at hn

/-- Claim C2 witness: the amended frame theorem at a concrete denial (a
missing grant), showing an unrelated grant slot untouched. -/
theorem C2_witness :
    (( {} : CapabilitySet).check Fixtures.env0 0 .FILE_READ none none none).2.1
      = false ∧
    (( {} : CapabilitySet).check Fixtures.env0 0 .FILE_READ none none
        none).1.grants .FILE_WRITE = ({} : CapabilitySet).grants .FILE_WRITE :=
  ⟨by decide,
    (C2_check_denial_frame {} Fixtures.env0 0 .FILE_READ none none none
      (by decide)).1 .FILE_WRITE (by decide)⟩

/-- Claim C3, counterexample: the permissive preset's denied lists do not
contain "sudo *" nor "~/.aws/*" (its lists are minimal), and no preset
carries the literal pattern "**/.env*" (the defaults carry "**/.env" and
"**/.env.*" instead) — refuting the claim for all three presets. -/
theorem C3_counterexample :
    (SandboxPolicy.for_profile "permissive").denied_commands.contains "sudo *"
      = false ∧
    (SandboxPolicy.for_profile "permissive").denied_paths.contains "~/.aws/*"
      = false ∧
    (SandboxPolicy.for_profile "standard").denied_paths.contains "**/.env*"
      = false :=
  ⟨by decide, by decide, by decide⟩

/-- Claim C3 (amended): the strict and standard presets' denied_paths contain
the well-known secret locations (with .env covered by the two patterns
"**/.env" and "**/.env.*") and their denied_commands contain the dangerous
commands; the permissive preset instead carries only the minimal denials
~/.ssh/*, ~/.gnupg/* and rm -rf /*, rm -rf /, mkfs*. -/
theorem C3_denied_lists :
    (["~/.ssh/*", "~/.gnupg/*", "~/.aws/*", "**/.env", "**/.env.*",
      "**/*.pem", "**/id_rsa*"].all
      (fun p => (SandboxPolicy.for_profile "strict").denied_paths.contains p)
      = true) ∧
    (["~/.ssh/*", "~/.gnupg/*", "~/.aws/*", "**/.env", "**/.env.*",
      "**/*.pem", "**/id_rsa*"].all
      (fun p => (SandboxPolicy.for_profile "standard").denied_paths.contains p)
      = true) ∧
    (["rm -rf /*", "mkfs*", "dd if=/dev/*", ":()\x7b:|:&\x7d;:", "sudo *",
      "curl * | bash"].all
      (fun c => (SandboxPolicy.for_profile "strict").denied_commands.contains c)
      = true) ∧
    (["rm -rf /*", "mkfs*", "dd if=/dev/*", ":()\x7b:|:&\x7d;:", "sudo *",
      "curl * | bash"].all
      (fun c => (SandboxPolicy.for_profile "standard").denied_commands.contains c)
      = true) ∧
    (SandboxPolicy.for_profile "permissive").denied_paths =
      ["~/.ssh/*", "~/.gnupg/*"] ∧
    (SandboxPolicy.for_profile "permissive").denied_commands =
      ["rm -rf /*", "rm -rf /", "mkfs*"] :=
  ⟨by decide, by decide, by decide, by decide, by decide, by decide⟩

/-- Claim C4: check evaluates presence, TTL expiry, exhaustion, rate limit,
path, command and domain scope in that order, returning the reason of the
first failing condition (checkSpecResult); and an expired grant is revoked,
so the follow-up check fails the presence test. -/
theorem C4_check_order (s : CapabilitySet) (env : Env) (now : Int)
    (cap : Capability) (path command url : Option String) :
    (s.check env now cap path command url).2 =
      checkSpecResult s env now cap path command url ∧
    (∀ g, s.grants cap = some g → g.scope.is_expired now = true →
      (s.check env now cap path command url).1.grants cap = none ∧
      ((s.check env now cap path command url).1.check env now cap path
          command url).2 =
        (false, "Capability " ++ cap.value ++ " not granted")) := by
  constructor
  · unfold checkSpecResult checkConditionsSpec CapabilitySet.check
    cases hg : s.grants cap with
    | none => simp [List.find?]
    | some g =>
      dsimp only
      rw [matches_path_pruned, matches_command_pruned, matches_domain_pruned]
      cases h1 : g.scope.is_expired now
      · cases h2 : g.scope.is_exhausted
        · cases h3 : (g.scope.is_rate_limited now).2
          · cases h4 : optTruthy path && !(g.scope.matches_path (path.getD ""))
            · cases h5 : optTruthy command
                  && !(g.scope.matches_command (command.getD ""))
              · cases h6 : optTruthy url
                    && !(g.scope.matches_domain env (url.getD ""))
                · simp [List.find?, h1, h2, h3, h4, h5, h6]
                · simp [List.find?, h1, h2, h3, h4, h5, h6]
              · simp [List.find?, h1, h2, h3, h4, h5]
            · simp [List.find?, h1, h2, h3, h4]
          · simp [List.find?, h1, h2, h3]
        · simp [List.find?, h1, h2]
      · simp [List.find?, h1]
  · intro g hg hexp
    have hstate : (s.check env now cap path command url).1 = s.revoke cap := by
      unfold CapabilitySet.check
      rw [hg]
      simp [hexp]
    rw [hstate]
    constructor
    · unfold CapabilitySet.revoke
      simp
    · unfold CapabilitySet.check CapabilitySet.revoke
      simp

/-- Claim C4 witness: the ordering theorem at a concrete expired grant — the
first failing condition is TTL expiry, the grant is revoked, and the
follow-up check reports "not granted". -/
theorem C4_witness :
    Fixtures.sExp.grants .FILE_READ = some Fixtures.expGrant ∧
    Fixtures.expGrant.scope.is_expired 11 = true ∧
    (Fixtures.sExp.check Fixtures.env0 11 .FILE_READ none none none).2 =
      checkSpecResult Fixtures.sExp Fixtures.env0 11 .FILE_READ none none none ∧
    ((Fixtures.sExp.check Fixtures.env0 11 .FILE_READ none none none).1.check
        Fixtures.env0 11 .FILE_READ none none none).2 =
      (false, "Capability file:read not granted") :=
  ⟨by decide, by decide,
    (C4_check_order Fixtures.sExp Fixtures.env0 11 .FILE_READ none none none).1,
    ((C4_check_order Fixtures.sExp Fixtures.env0 11 .FILE_READ none none
        none).2 Fixtures.expGrant (by decide) (by decide)).2⟩

/-- Claim C5, counterexample: compacting a two-message session — an
assistant message carrying a tool call and its tool-role response — with
keep_recent = 1 keeps the tool response but drops the assistant parent: the
assistant/tool-call unit is split, refuting the claim that the kept window
is extended to preserve the whole unit. -/
theorem C5_counterexample :
    Fixtures.sess0.messages = [Fixtures.asst, Fixtures.toolResp] ∧
    Fixtures.asst.tool_calls = some [{ id := "call1", name := "bash" }] ∧
    Fixtures.toolResp.tool_call_id = some "call1" ∧
    (SessionStore.compact Fixtures.sess0 "sum" 1 100).2.messages =
      [Fixtures.toolResp] ∧
    Fixtures.asst ∉ (SessionStore.compact Fixtures.sess0 "sum" 1 100).2.messages :=
  ⟨by decide, by decide, by decide, by decide, by decide⟩

/-- Claim C5 (amended): for 0 < keep_recent < message count, compact keeps
exactly the last keep_recent messages verbatim — the window is never
extended, so a boundary falling between an assistant tool-call message and
its tool responses splits that unit. -/
theorem C5_compact_keeps_exact (session : ConversationSession)
    (summary : String) (k : Nat) (now : Int)
    (h0 : 0 < k) (hlen : k < session.messages.length) :
    (SessionStore.compact session summary k now).2.messages =
      session.messages.drop (session.messages.length - k) ∧
    (SessionStore.compact session summary k now).2.compacted_count =
      session.compacted_count + (session.messages.length - k) ∧
    (SessionStore.compact session summary k now).2.compaction_summary =
      some summary ∧
    (SessionStore.compact session summary k now).1 =
      some (SessionFileLine.meta session.key.toStr session.project_path
          session.created_at ::
        SessionFileLine.compaction summary
          (session.compacted_count + (session.messages.length - k)) now ::
        (session.messages.drop (session.messages.length - k)).map
          SessionFileLine.message) := by
  unfold SessionStore.compact
  rw [if_neg (by omega)]
  dsimp only
  rw [if_neg (by omega)]
  exact ⟨rfl, rfl, rfl, rfl⟩

/-- Claim C5 witness: the amended theorem at the two-message session with
keep_recent = 1. -/
theorem C5_witness :
    0 < 1 ∧ 1 < Fixtures.sess0.messages.length ∧
    (SessionStore.compact Fixtures.sess0 "sum" 1 100).2.messages =
      Fixtures.sess0.messages.drop (Fixtures.sess0.messages.length - 1) :=
  ⟨by decide, by decide,
    (C5_compact_keeps_exact Fixtures.sess0 "sum" 1 100 (by decide) (by decide)).1⟩

/-- Claim C6, counterexample: with exactly three identical (bash, hash1)
calls tracked and nothing else, the stuck detector returns no message at all
(it requires at least four tracked calls), refuting the claim that the third
identical call already produces the warning. -/
theorem C6_counterexample :
    Fixtures.st3.recent_tool_calls =
      [("bash", "hash1"), ("bash", "hash1"), ("bash", "hash1")] ∧
    (detect_stuck Fixtures.st3 4).2 = none ∧
    (detect_stuck Fixtures.st3 4).1 = Fixtures.st3 :=
  ⟨by decide, by decide, by decide⟩

set_option maxRecDepth 16000 in
/-- Claim C6 (amended): after FOUR identical (bash, hash1) calls the
detector returns a warning containing "repeating the exact same 'bash'
call"; detecting twice more on the unchanged pattern produces the second
warning and then, on the call that produces the third warning, the sentinel
"BAIL". -/
theorem C6_stuck_detection :
    (detect_stuck Fixtures.st4 4).2.isSome = true ∧
    containsStr ((detect_stuck Fixtures.st4 4).2.getD "")
      "repeating the exact same \x27bash\x27 call" = true ∧
    ((detect_stuck Fixtures.st4 4).1).stuck_warnings_given = 1 ∧
    (detect_stuck ((detect_stuck Fixtures.st4 4).1) 5).2.isSome = true ∧
    (detect_stuck ((detect_stuck Fixtures.st4 4).1) 5).2 ≠ some "BAIL" ∧
    (detect_stuck ((detect_stuck ((detect_stuck Fixtures.st4 4).1) 5).1)
        6).2 = some "BAIL" :=
  ⟨by decide, by decide, by decide, by decide, by decide, by decide⟩

/-- Claim C7: pop scans priorities critical → high → normal → low →
background and returns the first queued task at the highest priority
present, marking it running with started_at stamped in the same rewritten
list; pop yields none exactly when nothing is queued; and the S5 scenario —
push (A, normal), (B, critical), (C, high) — pops B, then C, then A. -/
theorem C7_pop_priority (tasks : List DaemonTask) (now : Int) :
    ((TaskQueue.pop tasks now).2 = none ↔ ∀ t ∈ tasks, t.status ≠ .queued) ∧
    ((TaskQueue.pop tasks now).2 = none → (TaskQueue.pop tasks now).1 = tasks) ∧
    (∀ l' t', TaskQueue.pop tasks now = (l', some t') →
      ∃ i t0, tasks.get? i = some t0 ∧ t0.status = .queued ∧
        t' = { t0 with status := .running, started_at := some now } ∧
        l' = tasks.set i t' ∧
        (∀ u ∈ tasks, u.status = .queued →
          priorityRank t0.priority ≤ priorityRank u.priority) ∧
        (∀ j, j < i → ∀ u, tasks.get? j = some u → u.status = .queued →
          priorityRank t0.priority < priorityRank u.priority)) ∧
    ((TaskQueue.pop
        (TaskQueue.push (TaskQueue.push (TaskQueue.push [] Fixtures.tA)
          Fixtures.tB) Fixtures.tC) 10).2.map
        (fun t => (t.task_id, t.status, t.started_at)) =
      some ("B", .running, some 10) ∧
     (TaskQueue.pop (TaskQueue.pop [Fixtures.tA, Fixtures.tB, Fixtures.tC]
        10).1 11).2.map (fun t => (t.task_id, t.status, t.started_at)) =
      some ("C", .running, some 11) ∧
     (TaskQueue.pop (TaskQueue.pop (TaskQueue.pop
        [Fixtures.tA, Fixtures.tB, Fixtures.tC] 10).1 11).1 12).2.map
        (fun t => (t.task_id, t.status, t.started_at)) =
      some ("A", .running, some 12)) := by
  have hscen : (TaskQueue.pop
      (TaskQueue.push (TaskQueue.push (TaskQueue.push [] Fixtures.tA)
        Fixtures.tB) Fixtures.tC) 10).2.map
      (fun t => (t.task_id, t.status, t.started_at)) =
      some ("B", .running, some 10) ∧
      (TaskQueue.pop (TaskQueue.pop [Fixtures.tA, Fixtures.tB, Fixtures.tC]
        10).1 11).2.map (fun t => (t.task_id, t.status, t.started_at)) =
      some ("C", .running, some 11) ∧
      (TaskQueue.pop (TaskQueue.pop (TaskQueue.pop
        [Fixtures.tA, Fixtures.tB, Fixtures.tC] 10).1 11).1 12).2.map
        (fun t => (t.task_id, t.status, t.started_at)) =
      some ("A", .running, some 12) := ⟨by decide, by decide, by decide⟩
  refine ?_
  cases hc : TaskQueue.markFirst .critical now tasks with
  | some pr =>
    obtain ⟨l₁, x⟩ := pr
    have hpop : TaskQueue.pop tasks now = (l₁, some x) := by
      simp [TaskQueue.pop, TaskQueue.popLoop, TaskQueue.priority_order, hc]
    refine ⟨?_, ?_, ?_, hscen⟩
    · rw [hpop]
      constructor
      · intro h; exact absurd h (by simp)
      · intro hall
        obtain ⟨i, t0, hget, hq, _, _, _, _⟩ :=
          markFirst_eq_some .critical now tasks l₁ x hc
        exact absurd hq (hall t0 (List.get?_mem hget))
    · intro h; rw [hpop] at h; simp at h
    · intro l' t' hp
      rw [hpop] at hp
      injection hp with hl hs
      injection hs with ht
      subst hl; subst ht
      exact popAt_characterize tasks now .critical [] l₁ x
        (by simp) (by intro q; left; cases q <;> simp [priorityRank]) hc
  | none =>
    cases hh : TaskQueue.markFirst .high now tasks with
    | some pr =>
      obtain ⟨l₁, x⟩ := pr
      have hpop : TaskQueue.pop tasks now = (l₁, some x) := by
        simp [TaskQueue.pop, TaskQueue.popLoop, TaskQueue.priority_order, hc, hh]
      refine ⟨?_, ?_, ?_, hscen⟩
      · rw [hpop]
        constructor
        · intro h; exact absurd h (by simp)
        · intro hall
          obtain ⟨i, t0, hget, hq, _, _, _, _⟩ :=
            markFirst_eq_some .high now tasks l₁ x hh
          exact absurd hq (hall t0 (List.get?_mem hget))
      · intro h; rw [hpop] at h; simp at h
      · intro l' t' hp
        rw [hpop] at hp
        injection hp with hl hs
        injection hs with ht
        subst hl; subst ht
        exact popAt_characterize tasks now .high [.critical] l₁ x
          (by intro q hq; simp at hq; rw [hq]; exact hc)
          (by intro q; cases q <;> simp [priorityRank]) hh
    | none =>
      cases hn : TaskQueue.markFirst .normal now tasks with
      | some pr =>
        obtain ⟨l₁, x⟩ := pr
        have hpop : TaskQueue.pop tasks now = (l₁, some x) := by
          simp [TaskQueue.pop, TaskQueue.popLoop, TaskQueue.priority_order,
            hc, hh, hn]
        refine ⟨?_, ?_, ?_, hscen⟩
        · rw [hpop]
          constructor
          · intro h; exact absurd h (by simp)
          · intro hall
            obtain ⟨i, t0, hget, hq, _, _, _, _⟩ :=
              markFirst_eq_some .normal now tasks l₁ x hn
            exact absurd hq (hall t0 (List.get?_mem hget))
        · intro h; rw [hpop] at h; simp at h
        · intro l' t' hp
          rw [hpop] at hp
          injection hp with hl hs
          injection hs with ht
          subst hl; subst ht
          exact popAt_characterize tasks now .normal [.critical, .high] l₁ x
            (by intro q hq; simp at hq
                rcases hq with hq | hq <;> rw [hq] <;> [exact hc; exact hh])
            (by intro q; cases q <;> simp [priorityRank]) hn
      | none =>
        cases hl : TaskQueue.markFirst .low now tasks with
        | some pr =>
          obtain ⟨l₁, x⟩ := pr
          have hpop : TaskQueue.pop tasks now = (l₁, some x) := by
            simp [TaskQueue.pop, TaskQueue.popLoop, TaskQueue.priority_order,
              hc, hh, hn, hl]
          refine ⟨?_, ?_, ?_, hscen⟩
          · rw [hpop]
            constructor
            · intro h; exact absurd h (by simp)
            · intro hall
              obtain ⟨i, t0, hget, hq, _, _, _, _⟩ :=
                markFirst_eq_some .low now tasks l₁ x hl
              exact absurd hq (hall t0 (List.get?_mem hget))
          · intro h; rw [hpop] at h; simp at h
          · intro l' t' hp
            rw [hpop] at hp
            injection hp with hli hs
            injection hs with ht
            subst hli; subst ht
            exact popAt_characterize tasks now .low
              [.critical, .high, .normal] l₁ x
              (by intro q hq; simp at hq
                  rcases hq with hq | hq | hq <;> rw [hq] <;>
                    [exact hc; exact hh; exact hn])
              (by intro q; cases q <;> simp [priorityRank]) hl
        | none =>
          cases hb : TaskQueue.markFirst .background now tasks with
          | some pr =>
            obtain ⟨l₁, x⟩ := pr
            have hpop : TaskQueue.pop tasks now = (l₁, some x) := by
              simp [TaskQueue.pop, TaskQueue.popLoop, TaskQueue.priority_order,
                hc, hh, hn, hl, hb]
            refine ⟨?_, ?_, ?_, hscen⟩
            · rw [hpop]
              constructor
              · intro h; exact absurd h (by simp)
              · intro hall
                obtain ⟨i, t0, hget, hq, _, _, _, _⟩ :=
                  markFirst_eq_some .background now tasks l₁ x hb
                exact absurd hq (hall t0 (List.get?_mem hget))
            · intro h; rw [hpop] at h; simp at h
            · intro l' t' hp
              rw [hpop] at hp
              injection hp with hli hs
              injection hs with ht
              subst hli; subst ht
              exact popAt_characterize tasks now .background
                [.critical, .high, .normal, .low] l₁ x
                (by intro q hq; simp at hq
                    rcases hq with hq | hq | hq | hq <;> rw [hq] <;>
                      [exact hc; exact hh; exact hn; exact hl])
                (by intro q; cases q <;> simp [priorityRank]) hb
          | none =>
            have hpop : TaskQueue.pop tasks now = (tasks, none) := by
              simp [TaskQueue.pop, TaskQueue.popLoop, TaskQueue.priority_order,
                hc, hh, hn, hl, hb]
            refine ⟨?_, ?_, ?_, hscen⟩
            · rw [hpop]
              constructor
              · intro _ t ht hq
                cases hpri : t.priority
                · exact (markFirst_eq_none _ now tasks).mp hc t ht ⟨hq, hpri⟩
                · exact (markFirst_eq_none _ now tasks).mp hh t ht ⟨hq, hpri⟩
                · exact (markFirst_eq_none _ now tasks).mp hn t ht ⟨hq, hpri⟩
                · exact (markFirst_eq_none _ now tasks).mp hl t ht ⟨hq, hpri⟩
                · exact (markFirst_eq_none _ now tasks).mp hb t ht ⟨hq, hpri⟩
              · intro _; rfl
            · intro _; rw [hpop]
            · intro l' t' hp
              rw [hpop] at hp
              injection hp with _ hs
              exact absurd hs (by simp)

/-- Claim C7 witness: the pop characterization applied to a single-task
queue. -/
theorem C7_witness :
    TaskQueue.pop [Fixtures.tB] 5 =
      ([{ Fixtures.tB with status := .running, started_at := some 5 }],
        some { Fixtures.tB with status := .running, started_at := some 5 }) ∧
    (∃ i t0, [Fixtures.tB].get? i = some t0 ∧ t0.status = .queued ∧
      ({ Fixtures.tB with status := .running, started_at := some 5 } :
          DaemonTask) =
        { t0 with status := .running, started_at := some 5 } ∧
      [{ Fixtures.tB with status := .running, started_at := some 5 }] =
        [Fixtures.tB].set i
          { Fixtures.tB with status := .running, started_at := some 5 } ∧
      (∀ u ∈ [Fixtures.tB], u.status = .queued →
        priorityRank t0.priority ≤ priorityRank u.priority) ∧
      (∀ j, j < i → ∀ u, [Fixtures.tB].get? j = some u →
        u.status = .queued →
        priorityRank t0.priority < priorityRank u.priority)) :=
  ⟨rfl, (C7_pop_priority [Fixtures.tB] 5).2.2.1
    [{ Fixtures.tB with status := .running, started_at := some 5 }]
    { Fixtures.tB with status := .running, started_at := some 5 } rfl⟩

/-- Claim C8, counterexample: "gpt-4o-2024" is not a key of the pricing
table, yet estimate_cost prices it through the partial substring match with
the "gpt-4o" entry (0.0125 for 1000+1000 tokens) instead of returning the $2
per million fallback (0.004). -/
theorem C8_counterexample :
    MODEL_PRICING.lookup "gpt-4o-2024" = none ∧
    estimate_cost "gpt-4o-2024" 1000 1000 = 0.0125 ∧
    estimate_cost "gpt-4o-2024" 1000 1000 ≠
      ((1000 : ℚ) + 1000) * 0.000002 := by
  have hmain : estimate_cost "gpt-4o-2024" 1000 1000 = 0.0125 := by
    have hl : MODEL_PRICING.lookup "gpt-4o-2024" = none := by decide
    have hf : MODEL_PRICING.find?
        (fun (kv : String × ℚ × ℚ) =>
          containsStr "gpt-4o-2024" kv.1 || containsStr kv.1 "gpt-4o-2024") =
        some ("gpt-4o", 0.0025, 0.01) := by
      unfold MODEL_PRICING
      rw [List.find?_cons_of_neg _ (by decide), List.find?_cons_of_neg _ (by decide),
          List.find?_cons_of_neg _ (by decide), List.find?_cons_of_neg _ (by decide),
          List.find?_cons_of_pos _ (by decide)]
    unfold estimate_cost
    rw [hl, hf]
    norm_num
  refine ⟨by decide, hmain, ?_⟩
  rw [hmain]
  norm_num

/-- Claim C8 (amended): the $2-per-million fallback applies exactly to
models that are neither a key of the pricing table nor in a substring
relation (either direction) with any key. -/
theorem C8_unknown_model_fallback (model : String) (p c : Nat)
    (hl : MODEL_PRICING.lookup model = none)
    (hf : MODEL_PRICING.find?
        (fun (kv : String × ℚ × ℚ) =>
          containsStr model kv.1 || containsStr kv.1 model) = none) :
    estimate_cost model p c = ((p : ℚ) + (c : ℚ)) * 0.000002 := by
  unfold estimate_cost
  rw [hl, hf]
  simp

/-- Claim C8 witness: the fallback theorem at model "zzz" with 3 and 5
tokens. -/
theorem C8_witness :
    MODEL_PRICING.lookup "zzz" = none ∧
    estimate_cost "zzz" 3 5 = (((3 : Nat) : ℚ) + ((5 : Nat) : ℚ)) * 0.000002 :=
  ⟨by decide, C8_unknown_model_fallback "zzz" 3 5 (by decide) (by decide)⟩

/-- Claim C9: the classifier applies the hard rules first and in order —
reasoning > 0.8 ⇒ (reasoning, 0.97); else simplicity > 0.5 ⇒ (simple,
0.95); else math > 0.5 ⇒ (reasoning, 0.90) — and otherwise classifies the
weighted sum (with weights 0.10/0.20/0.25/0.20/0.10/0.05/0.10 over length,
code, reasoning, agentic, math, depth, simplicity) against the thresholds
0.15 / 0.35 / 0.55. -/
theorem C9_classify_rules (s : Scores) :
    RequestScorer.weightedSum s =
      s.length * 0.10 + s.code * 0.20 + s.reasoning * 0.25 + s.agentic * 0.20
        + s.math * 0.10 + s.depth * 0.05 + s.simplicity * 0.10 ∧
    (s.reasoning > 0.8 →
      RequestScorer.classify (RequestScorer.weightedSum s) s =
        (.reasoning, 0.97)) ∧
    (s.reasoning ≤ 0.8 → s.simplicity > 0.5 →
      RequestScorer.classify (RequestScorer.weightedSum s) s =
        (.simple, 0.95)) ∧
    (s.reasoning ≤ 0.8 → s.simplicity ≤ 0.5 → s.math > 0.5 →
      RequestScorer.classify (RequestScorer.weightedSum s) s =
        (.reasoning, 0.90)) ∧
    (s.reasoning ≤ 0.8 → s.simplicity ≤ 0.5 → s.math ≤ 0.5 →
      RequestScorer.weightedSum s < 0.15 →
      RequestScorer.classify (RequestScorer.weightedSum s) s =
        (.simple, 0.85)) ∧
    (s.reasoning ≤ 0.8 → s.simplicity ≤ 0.5 → s.math ≤ 0.5 →
      0.15 ≤ RequestScorer.weightedSum s → RequestScorer.weightedSum s < 0.35 →
      RequestScorer.classify (RequestScorer.weightedSum s) s =
        (.medium, 0.80)) ∧
    (s.reasoning ≤ 0.8 → s.simplicity ≤ 0.5 → s.math ≤ 0.5 →
      0.35 ≤ RequestScorer.weightedSum s → RequestScorer.weightedSum s < 0.55 →
      RequestScorer.classify (RequestScorer.weightedSum s) s =
        (.complex, 0.75)) ∧
    (s.reasoning ≤ 0.8 → s.simplicity ≤ 0.5 → s.math ≤ 0.5 →
      0.55 ≤ RequestScorer.weightedSum s →
      RequestScorer.classify (RequestScorer.weightedSum s) s =
        (.reasoning, 0.70)) := by
  refine ⟨rfl, ?_, ?_, ?_, ?_, ?_, ?_, ?_⟩
  · intro h1
    unfold RequestScorer.classify
    rw [if_pos h1]
  · intro h1 h2
    unfold RequestScorer.classify
    rw [if_neg (not_lt.mpr h1), if_pos h2]
  · intro h1 h2 h3
    unfold RequestScorer.classify
    rw [if_neg (not_lt.mpr h1), if_neg (not_lt.mpr h2), if_pos h3]
  · intro h1 h2 h3 h4
    unfold RequestScorer.classify
    rw [if_neg (not_lt.mpr h1), if_neg (not_lt.mpr h2), if_neg (not_lt.mpr h3),
      if_pos h4]
  · intro h1 h2 h3 h4 h5
    unfold RequestScorer.classify
    rw [if_neg (not_lt.mpr h1), if_neg (not_lt.mpr h2), if_neg (not_lt.mpr h3),
      if_neg (not_lt.mpr h4), if_pos h5]
  · intro h1 h2 h3 h4 h5
    have ha : ¬ RequestScorer.weightedSum s < 0.15 :=
      not_lt.mpr (le_trans (by norm_num) h4)
    unfold RequestScorer.classify
    rw [if_neg (not_lt.mpr h1), if_neg (not_lt.mpr h2), if_neg (not_lt.mpr h3),
      if_neg ha, if_neg (not_lt.mpr h4), if_pos h5]
  · intro h1 h2 h3 h4
    have ha : ¬ RequestScorer.weightedSum s < 0.15 :=
      not_lt.mpr (le_trans (by norm_num) h4)
    have hb : ¬ RequestScorer.weightedSum s < 0.35 :=
      not_lt.mpr (le_trans (by norm_num) h4)
    unfold RequestScorer.classify
    rw [if_neg (not_lt.mpr h1), if_neg (not_lt.mpr h2), if_neg (not_lt.mpr h3),
      if_neg ha, if_neg hb, if_neg (not_lt.mpr h4)]

/-- Claim C9 witness: the hard reasoning rule at a score vector with
reasoning = 1. -/
theorem C9_witness :
    Fixtures.scoresR.reasoning > 0.8 ∧
    RequestScorer.classify (RequestScorer.weightedSum Fixtures.scoresR)
      Fixtures.scoresR = (.reasoning, 0.97) :=
  ⟨by norm_num [Fixtures.scoresR],
    (C9_classify_rules Fixtures.scoresR).2.1 (by norm_num [Fixtures.scoresR])⟩

/-- Claim C10: create unconditionally truncates — whatever the directory
held for that (agent_id, session_id) file, afterwards the file holds exactly
the single fresh metadata line; other files are untouched, and the returned
in-memory session is empty. -/
theorem C10_create_truncates (dir : SessionDir)
    (agent_id session_id project_path : String) (now : Int) :
    (SessionStore.create dir agent_id session_id project_path now).1
        (SessionKey.filename { agent_id := agent_id, session_id := session_id }) =
      some [SessionFileLine.meta
        (SessionKey.toStr { agent_id := agent_id, session_id := session_id })
        project_path now] ∧
    (∀ f, f ≠ SessionKey.filename { agent_id := agent_id, session_id := session_id } →
      (SessionStore.create dir agent_id session_id project_path now).1 f =
        dir f) ∧
    (SessionStore.create dir agent_id session_id project_path now).2 =
      { key := { agent_id := agent_id, session_id := session_id },
        project_path := project_path, created_at := now, updated_at := now } := by
  unfold SessionStore.create
  exact ⟨if_pos rfl, fun f hf => if_neg hf, rfl⟩

/-- Claim C10 witness: creating over an existing two-line log leaves exactly
the one fresh metadata line and does not touch other files. -/
theorem C10_witness :
    Fixtures.dir0 "unclaude_abc.jsonl" =
      some [SessionFileLine.meta "agent:unclaude:abc" "/p" 1,
            SessionFileLine.message { role := "user", content := some "hi" }] ∧
    (SessionStore.create Fixtures.dir0 "unclaude" "abc" "/q" 7).1
        (SessionKey.filename { agent_id := "unclaude", session_id := "abc" }) =
      some [SessionFileLine.meta
        (SessionKey.toStr { agent_id := "unclaude", session_id := "abc" })
        "/q" 7] ∧
    (SessionStore.create Fixtures.dir0 "unclaude" "abc" "/q" 7).1
        "other.jsonl" = Fixtures.dir0 "other.jsonl" :=
  ⟨by decide,
    (C10_create_truncates Fixtures.dir0 "unclaude" "abc" "/q" 7).1,
    (C10_create_truncates Fixtures.dir0 "unclaude" "abc" "/q" 7).2.1
      "other.jsonl" (by decide)⟩

end Unclaude
